import Mathlib

/-!
Verification of the payment/credit core of the YooKassa token bot (`bot.py`).

The bot persists three SQLite tables: `users` (the account ledger), `orders`
(purchase intents) and `payments` (the user-visible audit trail).  We model
`users` as a partial map from `user_id` to an `Account` row (the table's
primary key makes it exactly that), and `orders` / `payments` as lists of
rows, with SQL `UPDATE ... WHERE` modelled as a map over the matching rows,
`DELETE ... WHERE` as a filter, and `SELECT ... fetchone()` as `List.find?`.
Monetary amounts (the SQLite `REAL` columns `price`, `amount`, `total_spent`,
whose concrete values in the pack catalog are exact decimals) are modelled as
rationals; timestamps as integers (seconds); the external provider
(YooKassa `Payment.find_one` / `Payment.create`) as a function returning
`Option` — `none` models the call raising an exception.
-/

namespace YooKassaBot

/-- Fixed cost of one assistant request (`self.COST_PER_REQUEST = 10`,
`bot.py` line 36). -/
def COST_PER_REQUEST : Int := 10

/-- A row of the `users` table (`bot.py` lines 64-71):
`user_id TEXT PRIMARY KEY, tokens INTEGER DEFAULT 100, total_spent REAL
DEFAULT 0, registered TIMESTAMP`.  The key is kept outside the row, in the
map modelling the table. -/
structure Account where
  tokens : Int
  total_spent : ℚ
  registered : Int
deriving DecidableEq

/-- A row of the `orders` table (`bot.py` lines 87-98): `order_id TEXT
PRIMARY KEY, user_id, pack_id, tokens, price, yookassa_payment_id, status
TEXT DEFAULT 'created', created TIMESTAMP`. -/
structure Order where
  order_id : String
  user_id : String
  pack_id : String
  tokens : Int
  price : ℚ
  yookassa_payment_id : String
  status : String
  created : Int
deriving DecidableEq

/-- A row of the `payments` table (`bot.py` lines 73-85): `user_id, amount,
tokens_added, yookassa_id, status TEXT DEFAULT 'pending', description,
created, updated`.  The AUTOINCREMENT surrogate key plays no role in any
query and is omitted. -/
structure PaymentRow where
  user_id : String
  amount : ℚ
  tokens_added : Int
  yookassa_id : String
  status : String
  description : String
  created : Int
  updated : Int
deriving DecidableEq

/-- The persisted database state: the three tables of `init_db`. -/
structure DB where
  users : String → Option Account
  orders : List Order
  payments : List PaymentRow

/-- SQL `UPDATE users SET ... WHERE user_id = uid`: apply `f` to the row
keyed `uid`, if present. -/
def DB.updateUser (db : DB) (uid : String) (f : Account → Account) : DB :=
  { db with users := fun u => if u = uid then (db.users u).map f else db.users u }

/-- The catalog entry for one token pack (`self.token_packs`, lines 39-44). -/
structure Pack where
  tokens : Int
  price : ℚ
deriving DecidableEq

/-- The fixed pack catalog `self.token_packs` (`bot.py` lines 39-44). -/
def token_packs : String → Option Pack := fun pack_id =>
  if pack_id = "small" then some ⟨1000, 100⟩
  else if pack_id = "medium" then some ⟨5000, 450⟩
  else if pack_id = "large" then some ⟨15000, 1200⟩
  else if pack_id = "premium" then some ⟨50000, 3500⟩
  else none

/-- `register_user` (`bot.py` lines 756-759): `INSERT OR IGNORE INTO users
(user_id, tokens) VALUES (?, 100)` — creates the account with the default
balance of 100 if absent, otherwise leaves it untouched. -/
def register_user (uid : String) (now : Int) (db : DB) : DB :=
  { db with
    users := fun u =>
      if u = uid then some ((db.users u).getD ⟨100, 0, now⟩) else db.users u }

/-- `get_user_info` (`bot.py` lines 761-771): `SELECT tokens, total_spent
FROM users WHERE user_id = ?`. -/
def get_user_info (db : DB) (uid : String) : Option Account :=
  db.users uid

/-- `create_yookassa_payment` (`bot.py` lines 263-353).  The provider call
`Payment.create` happens first, inside the `try`; `provider_create = none`
models that call raising, in which case the `except` branch performs no
insert.  Only when the provider has returned a charge id (`payment.id`)
are the `orders` row (status `'created'`) and the mirrored `payments` row
(status `'pending'`) inserted and committed. -/
def create_yookassa_payment (provider_create : Option String)
    (uid pack_id order_id : String) (now : Int) (db : DB) : DB :=
  match token_packs pack_id with
  | none => db
  | some pack =>
    match provider_create with
    | none => db
    | some charge_id =>
      { db with
        orders := db.orders ++
          [⟨order_id, uid, pack_id, pack.tokens, pack.price, charge_id,
            "created", now⟩],
        payments := db.payments ++
          [⟨uid, pack.price, pack.tokens, charge_id, "pending",
            "Покупка токенов", now, now⟩] }

/-- One row's update for `UPDATE orders SET status = 'paid' WHERE
order_id = ?` (`bot.py` lines 430-434). -/
def settleOrderRow (order_id : String) (o : Order) : Order :=
  if o.order_id = order_id then { o with status := "paid" } else o

/-- One row's update for `UPDATE payments SET status = 'completed',
updated = CURRENT_TIMESTAMP WHERE yookassa_id = ?` (`bot.py` lines 436-440). -/
def completePaymentRow (payment_id : String) (now : Int) (p : PaymentRow) :
    PaymentRow :=
  if p.yookassa_id = payment_id then
    { p with status := "completed", updated := now }
  else p

/-- The idempotency guard of the settlement `SELECT` (`bot.py` lines
411-415): `WHERE o.order_id = ? AND o.status != 'paid'`. -/
def settleGuard (order_id : String) (o : Order) : Bool :=
  o.order_id == order_id && o.status != "paid"

/-- `process_successful_payment` (`bot.py` lines 408-442), the settlement
engine.  Select the order by id with the guard `status != 'paid'`
(`fetchone`); if no row matches, return with no mutation.  Otherwise credit
the user (`tokens = tokens + ?, total_spent = total_spent + ?`), flip the
order to `'paid'` and the mirrored payment row to `'completed'`, and commit
all of it together.  The post-commit Telegram notification (lines 444-464)
touches no persisted state and is not modelled. -/
def process_successful_payment (payment_id order_id : String) (now : Int)
    (db : DB) : DB :=
  match db.orders.find? (settleGuard order_id) with
  | none => db
  | some o =>
    let db1 := db.updateUser o.user_id (fun a =>
      { a with tokens := a.tokens + o.tokens,
               total_spent := a.total_spent + o.price })
    { db1 with
      orders := db1.orders.map (settleOrderRow order_id),
      payments := db1.payments.map (completePaymentRow payment_id now) }

/-- `check_payment_status` (`bot.py` lines 355-406), the synchronous
"check now" path.  Select the order (`fetchone`); absent order: answer
only.  Status already `'paid'`: answer only.  Otherwise query the provider
(`Payment.find_one`; `none` models it raising): on `'succeeded'` call the
settlement engine; on `'pending'` or any other status (`'canceled'`,
`'failed'`) the code only answers the user and mutates nothing. -/
def check_payment_status (provider : String → Option String)
    (order_id : String) (now : Int) (db : DB) : DB :=
  match db.orders.find? (fun o => o.order_id == order_id) with
  | none => db
  | some o =>
    if o.status = "paid" then db
    else
      match provider o.yookassa_payment_id with
      | none => db
      | some st =>
        if st = "succeeded" then
          process_successful_payment o.yookassa_payment_id order_id now db
        else db

/-- One row's update for `UPDATE orders SET status = 'failed' WHERE
order_id = ?` (`bot.py` line 485). -/
def failOrderRow (order_id : String) (o : Order) : Order :=
  if o.order_id = order_id then { o with status := "failed" } else o

/-- One row's update for `UPDATE payments SET status = 'failed' WHERE
yookassa_id = ?` (`bot.py` line 486). -/
def failPaymentRow (payment_id : String) (p : PaymentRow) : PaymentRow :=
  if p.yookassa_id = payment_id then { p with status := "failed" } else p

/-- The body of the sweep's per-order loop (`bot.py` lines 477-490), run on
one `(order_id, yookassa_payment_id)` pair from the snapshot.  A provider
error (`none`) is caught and skipped; `'succeeded'` routes to the
settlement engine; `'canceled'` / `'failed'` set the order row and the
mirrored payment row to `'failed'`; other statuses do nothing. -/
def sweepStep (provider : String → Option String) (now : Int) (db : DB)
    (pr : String × String) : DB :=
  match provider pr.2 with
  | none => db
  | some st =>
    if st = "succeeded" then process_successful_payment pr.2 pr.1 now db
    else if st = "canceled" ∨ st = "failed" then
      { db with
        orders := db.orders.map (failOrderRow pr.1),
        payments := db.payments.map (failPaymentRow pr.2) }
    else db

/-- The purge at the end of the sweep (`bot.py` lines 492-497):
`DELETE FROM orders WHERE status IN ('failed', 'canceled') AND
datetime(created) < datetime('now', '-7 days')`. -/
def purge_stale (now : Int) (db : DB) : DB :=
  { db with
    orders := db.orders.filter (fun o =>
      !((o.status == "failed" || o.status == "canceled") &&
        decide (o.created < now - 7 * 86400))) }

/-- The `SELECT` opening the sweep (`bot.py` lines 468-475): orders with
`status = 'created'` younger than one day, snapshot taken before the loop. -/
def pendingOrders (now : Int) (db : DB) : List (String × String) :=
  (db.orders.filter (fun o =>
      o.status == "created" && decide (now - 86400 < o.created))).map
    (fun o => (o.order_id, o.yookassa_payment_id))

/-- `check_pending_payments` (`bot.py` lines 466-497), the periodic sweep:
snapshot the pending orders, run the per-order loop over the snapshot, then
purge stale terminal orders. -/
def check_pending_payments (provider : String → Option String) (now : Int)
    (db : DB) : DB :=
  purge_stale now ((pendingOrders now db).foldl (sweepStep provider now) db)

/-- Outcome of one `handle_message` run, as far as the ledger is concerned. -/
inductive MsgResult where
  | insufficient
  | ok
  | refunded
deriving DecidableEq

/-- The ledger-relevant skeleton of `handle_message` (`bot.py` lines
545-674).  If the account is absent or `tokens < COST_PER_REQUEST`, answer
"insufficient" with no mutation (lines 550-558).  Otherwise debit
`COST_PER_REQUEST` (`UPDATE users SET tokens = tokens - ?`, line 568);
`downstream_ok = false` models the outer `try` failing after the debit, in
which case the `except` branch refunds the same amount (`UPDATE users SET
tokens = tokens + ?`, line 666) and, notably, never touches `total_spent`.
The conversation-history and Ollama plumbing touch no persisted state. -/
def handle_message (downstream_ok : Bool) (uid : String) (db : DB) :
    DB × MsgResult :=
  match get_user_info db uid with
  | none => (db, MsgResult.insufficient)
  | some a =>
    if a.tokens < COST_PER_REQUEST then (db, MsgResult.insufficient)
    else
      let db1 := db.updateUser uid (fun x =>
        { x with tokens := x.tokens - COST_PER_REQUEST })
      if downstream_ok then (db1, MsgResult.ok)
      else
        (db1.updateUser uid (fun x =>
          { x with tokens := x.tokens + COST_PER_REQUEST }), MsgResult.refunded)

/-- A sequence of `n` consecutive successful-downstream requests by one
user, returning the final state and how many requests were actually
debited (the others were refused as insufficient). -/
def run_messages (uid : String) : Nat → DB → DB × Nat
  | 0, db => (db, 0)
  | n + 1, db =>
    let r := handle_message true uid db
    let rest := run_messages uid n r.1
    (rest.1, (if r.2 = MsgResult.ok then 1 else 0) + rest.2)

/-- Splitting a character list on a separator, mirroring Python's
`str.split`: `splitOnAux '_' "a_b_c".data [] = ["a".data, "b".data,
"c".data]`. -/
def splitOnAux (c : Char) : List Char → List Char → List (List Char)
  | [], acc => [acc.reverse]
  | x :: xs, acc =>
    if x = c then acc.reverse :: splitOnAux c xs []
    else splitOnAux c xs (x :: acc)

/-- The `data.split("_")[2]` extraction used by `button_handler` (`bot.py`
lines 741, 744, 747). -/
def splitUnderscoreThird (data : String) : String :=
  String.mk ((splitOnAux '_' data.data []).getD 2 [])

/-- The database-mutating skeleton of `button_handler` (`bot.py` lines
709-754), with the `data.startswith(...)` dispatch modelled on the
strings' character lists.  Only two callback prefixes reach a
database-mutating operation: `create_payment_<pack>` (line 740) and
`check_payment_<order>` (line 743).  Every other branch — `menu`,
`balance`, `buy`, `history`, `help`, `ask_question`, `clear_history`, the
unknown-command fallback, and in particular `cancel_order_<order>` (lines
746-749), which only answers "Заказ отменен" and edits the message text —
performs no database operation at all. -/
def button_handler (provider : String → Option String)
    (provider_create : Option String) (uid new_order_id : String)
    (now : Int) (data : String) (db : DB) : DB :=
  if "create_payment_".data.isPrefixOf data.data then
    create_yookassa_payment provider_create uid (splitUnderscoreThird data)
      new_order_id now db
  else if "check_payment_".data.isPrefixOf data.data then
    check_payment_status provider (splitUnderscoreThird data) now db
  else
    db

/-- Where a concurrently running `handle_message` coroutine stands.
`start`: before the balance check of line 550; `debit`: the check passed
and the coroutine is suspended at the awaited `chat.send_action` of line
564, with the debit `UPDATE` of line 568 still to come; `done`: finished
(either refused as insufficient or debited). -/
inductive Phase where
  | start
  | debit
  | done
deriving DecidableEq

/-- Two concurrent `handle_message` coroutines for the same user, sharing
that user's `tokens` balance.  Each SQLite statement runs atomically, but
the `await` of line 564 sits between the balance check and the debit, so
the event loop may interleave the two coroutines there. -/
structure ConcState where
  tokens : Int
  phaseA : Phase
  phaseB : Phase
deriving DecidableEq

/-- One atomic step of a single coroutine: from `start`, perform the
balance check of `bot.py` line 550 (insufficient funds finishes the
coroutine with no mutation, otherwise it suspends before the debit); from
`debit`, perform the `UPDATE users SET tokens = tokens - ?` of line 568. -/
def stepHandler (ph : Phase) (tokens : Int) : Phase × Int :=
  match ph with
  | Phase.start =>
    if tokens < COST_PER_REQUEST then (Phase.done, tokens) else (Phase.debit, tokens)
  | Phase.debit => (Phase.done, tokens - COST_PER_REQUEST)
  | Phase.done => (Phase.done, tokens)

/-- Scheduler step: `true` runs coroutine A, `false` runs coroutine B. -/
def stepConc (s : ConcState) (which : Bool) : ConcState :=
  if which then
    let r := stepHandler s.phaseA s.tokens
    { s with phaseA := r.1, tokens := r.2 }
  else
    let r := stepHandler s.phaseB s.tokens
    { s with phaseB := r.1, tokens := r.2 }

/-- Run a schedule (an interleaving chosen by the event loop). -/
def runConc (s : ConcState) (sched : List Bool) : ConcState :=
  sched.foldl stepConc s

/-! Concrete states used by the witnesses and counterexamples below. -/

/-- An order row for the `small` pack, with the given status. -/
def testOrder (st : String) : Order :=
  ⟨"o1", "u1", "small", 1000, 100, "p1", st, 0⟩

/-- The mirrored payments row, with the given status. -/
def testPayment (st : String) : PaymentRow :=
  ⟨"u1", 100, 1000, "p1", st, "Покупка токенов", 0, 0⟩

/-- A one-user, one-order database. -/
def testDB (orderSt paySt : String) (tok : Int) : DB :=
  { users := fun u => if u = "u1" then some ⟨tok, 0, 0⟩ else none,
    orders := [testOrder orderSt],
    payments := [testPayment paySt] }

/-- A provider that reports the given status for charge `p1`. -/
def testProvider (st : String) : String → Option String :=
  fun c => if c = "p1" then some st else none

/-! Helper lemmas. -/

lemma updateUser_users_self (db : DB) (uid : String) (f : Account → Account) :
    (db.updateUser uid f).users uid = (db.users uid).map f := by
  simp [DB.updateUser]

lemma updateUser_users_other (db : DB) (uid u : String) (f : Account → Account)
    (h : u ≠ uid) : (db.updateUser uid f).users u = db.users u := by
  simp [DB.updateUser, h]

lemma settleOrderRow_id (oid : String) (o : Order) :
    (settleOrderRow oid o).order_id = o.order_id := by
  simp only [settleOrderRow]
  split <;> rfl

lemma settle_of_guard_none (pid oid : String) (now : Int) (db : DB)
    (h : db.orders.find? (settleGuard oid) = none) :
    process_successful_payment pid oid now db = db := by
  simp [process_successful_payment, h]

lemma settle_users_credited (pid oid : String) (now : Int) (db : DB)
    (o : Order) (a : Account)
    (hfind : db.orders.find? (settleGuard oid) = some o)
    (hu : db.users o.user_id = some a) :
    (process_successful_payment pid oid now db).users o.user_id =
      some { a with tokens := a.tokens + o.tokens,
                    total_spent := a.total_spent + o.price } := by
  simp only [process_successful_payment, hfind]
  simp [DB.updateUser, hu]

lemma settle_users_other (pid oid : String) (now : Int) (db : DB)
    (o : Order) (u : String)
    (hfind : db.orders.find? (settleGuard oid) = some o)
    (hne : u ≠ o.user_id) :
    (process_successful_payment pid oid now db).users u = db.users u := by
  simp only [process_successful_payment, hfind]
  simp [DB.updateUser, hne]

lemma settle_orders_paid (pid oid : String) (now : Int) (db : DB) (o : Order)
    (hfind : db.orders.find? (settleGuard oid) = some o) :
    ∀ x ∈ (process_successful_payment pid oid now db).orders,
      x.order_id = oid → x.status = "paid" := by
  simp only [process_successful_payment, hfind]
  intro x hx hid
  rw [List.mem_map] at hx
  obtain ⟨y, _, rfl⟩ := hx
  by_cases hy : y.order_id = oid
  · simp [settleOrderRow, hy]
  · rw [settleOrderRow_id] at hid
    exact absurd hid hy

lemma settle_payments_completed (pid oid : String) (now : Int) (db : DB)
    (o : Order)
    (hfind : db.orders.find? (settleGuard oid) = some o) :
    ∀ p ∈ (process_successful_payment pid oid now db).payments,
      p.yookassa_id = pid → p.status = "completed" ∧ p.updated = now := by
  simp only [process_successful_payment, hfind]
  intro p hp hpid
  rw [List.mem_map] at hp
  obtain ⟨q, _, rfl⟩ := hp
  by_cases hq : q.yookassa_id = pid
  · simp [completePaymentRow, hq]
  · simp only [completePaymentRow] at hpid ⊢
    rw [if_neg hq] at hpid
    exact absurd hpid hq

lemma settle_guard_after (pid oid : String) (now : Int) (db : DB) (o : Order)
    (hfind : db.orders.find? (settleGuard oid) = some o) :
    (process_successful_payment pid oid now db).orders.find?
      (settleGuard oid) = none := by
  simp only [process_successful_payment, hfind]
  rw [List.find?_eq_none]
  intro x hx
  rw [List.mem_map] at hx
  obtain ⟨y, _, rfl⟩ := hx
  by_cases hy : y.order_id = oid <;> simp [settleGuard, settleOrderRow, hy]

/-! Claim theorems. -/

/-- C1: settling the same order twice (second call after the first one has
completed) credits the account exactly once, leaves the order `'paid'`
after both calls, and the second call performs no mutation because the
selection guard `status != 'paid'` matches no row. -/
theorem settle_twice_credits_once (pid oid : String) (now now2 : Int)
    (db : DB) (o : Order) (a : Account)
    (hfind : db.orders.find? (settleGuard oid) = some o)
    (hu : db.users o.user_id = some a) :
    process_successful_payment pid oid now2
        (process_successful_payment pid oid now db) =
      process_successful_payment pid oid now db
    ∧ (process_successful_payment pid oid now db).users o.user_id =
        some { a with tokens := a.tokens + o.tokens,
                      total_spent := a.total_spent + o.price }
    ∧ ∀ x ∈ (process_successful_payment pid oid now db).orders,
        x.order_id = oid → x.status = "paid" :=
  ⟨settle_of_guard_none pid oid now2 _ (settle_guard_after pid oid now db o hfind),
   settle_users_credited pid oid now db o a hfind hu,
   settle_orders_paid pid oid now db o hfind⟩

/-- Witness for C1 at a concrete one-order database. -/
theorem settle_twice_credits_once_witness :
    ((testDB "created" "pending" 100).orders.find? (settleGuard "o1") =
        some (testOrder "created"))
    ∧ process_successful_payment "p1" "o1" 2
          (process_successful_payment "p1" "o1" 1 (testDB "created" "pending" 100)) =
        process_successful_payment "p1" "o1" 1 (testDB "created" "pending" 100) :=
  ⟨by decide,
   (settle_twice_credits_once "p1" "o1" 1 2 (testDB "created" "pending" 100)
      (testOrder "created") ⟨100, 0, 0⟩ (by decide) (by decide)).1⟩

/-- C5: a single settlement of a non-`'paid'` order credits the account's
tokens by exactly the order's snapshotted `tokens` and `total_spent` by
exactly the snapshotted `price`, flips the order to `'paid'` and the
mirrored payment row to `'completed'` (setting `updated`), all in one
transaction, and leaves every other account untouched; when the guard
matches no row (the order never reaches `'paid'` through this call),
nothing at all — in particular `total_spent` — changes. -/
theorem settle_single_effects (pid oid : String) (now : Int) (db : DB)
    (o : Order) (a : Account)
    (hfind : db.orders.find? (settleGuard oid) = some o)
    (hu : db.users o.user_id = some a) :
    (process_successful_payment pid oid now db).users o.user_id =
      some { a with tokens := a.tokens + o.tokens,
                    total_spent := a.total_spent + o.price }
    ∧ (∀ u, u ≠ o.user_id →
        (process_successful_payment pid oid now db).users u = db.users u)
    ∧ (∀ x ∈ (process_successful_payment pid oid now db).orders,
        x.order_id = oid → x.status = "paid")
    ∧ (∀ p ∈ (process_successful_payment pid oid now db).payments,
        p.yookassa_id = pid → p.status = "completed" ∧ p.updated = now)
    ∧ (∀ dbx : DB, dbx.orders.find? (settleGuard oid) = none →
        process_successful_payment pid oid now dbx = dbx) :=
  ⟨settle_users_credited pid oid now db o a hfind hu,
   fun u hne => settle_users_other pid oid now db o u hfind hne,
   settle_orders_paid pid oid now db o hfind,
   settle_payments_completed pid oid now db o hfind,
   fun dbx hx => settle_of_guard_none pid oid now dbx hx⟩

/-- Witness for C5 at a concrete one-order database. -/
theorem settle_single_effects_witness :
    ((testDB "created" "pending" 0).orders.find? (settleGuard "o1") =
        some (testOrder "created"))
    ∧ ∀ p ∈ (process_successful_payment "p1" "o1" 7 (testDB "created" "pending" 0)).payments,
        p.yookassa_id = "p1" → p.status = "completed" ∧ p.updated = 7 :=
  ⟨by decide,
   (settle_single_effects "p1" "o1" 7 (testDB "created" "pending" 0)
      (testOrder "created") ⟨0, 0, 0⟩ (by decide) (by decide)).2.2.2.1⟩

lemma fail_orders_failed (oid : String) (l : List Order) :
    ∀ x ∈ l.map (failOrderRow oid), x.order_id = oid → x.status = "failed" := by
  intro x hx hid
  rw [List.mem_map] at hx
  obtain ⟨y, _, rfl⟩ := hx
  by_cases hy : y.order_id = oid
  · simp [failOrderRow, hy]
  · simp only [failOrderRow] at hid ⊢
    rw [if_neg hy] at hid
    exact absurd hid hy

lemma fail_payments_failed (pid : String) (l : List PaymentRow) :
    ∀ p ∈ l.map (failPaymentRow pid), p.yookassa_id = pid → p.status = "failed" := by
  intro p hp hpid
  rw [List.mem_map] at hp
  obtain ⟨q, _, rfl⟩ := hp
  by_cases hq : q.yookassa_id = pid
  · simp [failPaymentRow, hq]
  · simp only [failPaymentRow] at hpid ⊢
    rw [if_neg hq] at hpid
    exact absurd hpid hq

/-- Counterexample to C2: the synchronous check guards only against
`status == 'paid'` (`bot.py` line 369) and the settlement guard is only
`status != 'paid'` (line 414), so a `'failed'` order whose provider charge
reports `succeeded` is transitioned to `'paid'` and the account is
credited — `'failed'` is not terminal.  Concretely: an order in status
`'failed'` for 1000 tokens, account balance 0; after `check_payment_status`
the balance is 1000 and the order is `'paid'`. -/
theorem failed_order_resettled :
    ((testDB "failed" "failed" 0).orders.map Order.status = ["failed"])
    ∧ (((check_payment_status (testProvider "succeeded") "o1" 5
          (testDB "failed" "failed" 0)).users "u1").map Account.tokens = some 1000)
    ∧ ((check_payment_status (testProvider "succeeded") "o1" 5
          (testDB "failed" "failed" 0)).orders.map Order.status = ["paid"]) := by
  decide

/-- C2 (amended): `'paid'` is terminal — for an order all of whose rows are
`'paid'`, neither the synchronous check nor the settlement engine mutates
any state, so a paid order is never re-credited; but `'failed'` is not
terminal: the synchronous check re-examines any non-`'paid'` order, and if
the provider reports `succeeded` for a `'failed'` order it is transitioned
to `'paid'` and credited (see the counterexample), so an order can
transition more than once.  The periodic sweep, by contrast, only selects
orders still in `'created'`. -/
theorem paid_status_terminal (provider : String → Option String)
    (pid oid : String) (now : Int) (db : DB)
    (hall : ∀ x ∈ db.orders, x.order_id = oid → x.status = "paid") :
    check_payment_status provider oid now db = db
    ∧ process_successful_payment pid oid now db = db
    ∧ ∀ pr ∈ pendingOrders now db, pr.1 ≠ oid := by
  have hguard : db.orders.find? (settleGuard oid) = none := by
    rw [List.find?_eq_none]
    intro x hx
    by_cases h : x.order_id = oid
    · simp [settleGuard, h, hall x hx h]
    · simp [settleGuard, h]
  refine ⟨?_, settle_of_guard_none pid oid now db hguard, ?_⟩
  · unfold check_payment_status
    cases hf : db.orders.find? (fun o => o.order_id == oid) with
    | none => rfl
    | some o =>
      have hid : o.order_id = oid := by
        have := List.find?_some hf
        simpa using this
      have : o.status = "paid" := hall o (List.mem_of_find?_eq_some hf) hid
      simp [this]
  · intro pr hpr
    simp only [pendingOrders, List.mem_map] at hpr
    obtain ⟨y, hy, rfl⟩ := hpr
    rw [List.mem_filter] at hy
    intro hid
    have : y.status = "paid" := hall y hy.1 hid
    simp [this] at hy

/-- Witness for the amended C2 at a concrete paid order. -/
theorem paid_status_terminal_witness :
    (∀ x ∈ (testDB "paid" "completed" 0).orders, x.order_id = "o1" → x.status = "paid")
    ∧ check_payment_status (testProvider "succeeded") "o1" 3
        (testDB "paid" "completed" 0) = testDB "paid" "completed" 0 :=
  ⟨by decide,
   (paid_status_terminal (testProvider "succeeded") "p1" "o1" 3
      (testDB "paid" "completed" 0) (by decide)).1⟩

/-- Counterexample to C7: when the provider reports `canceled` the
synchronous check (`bot.py` lines 399-402) only answers the user — it does
not transition the order or the payment row to `'failed'`; both keep
their previous statuses `'created'` / `'pending'`. -/
theorem check_canceled_no_transition :
    check_payment_status (testProvider "canceled") "o1" 5
        (testDB "created" "pending" 0) = testDB "created" "pending" 0
    ∧ (testDB "created" "pending" 0).orders.map Order.status = ["created"]
    ∧ (testDB "created" "pending" 0).payments.map PaymentRow.status = ["pending"] :=
  ⟨rfl, by decide, by decide⟩

/-- C7 (amended): the synchronous check mutates nothing whenever the
provider reports anything other than `succeeded` — for `pending`,
`canceled` and `failed` alike it only answers the user; the transition of
the order row and the mirrored payment row to `'failed'` on a
`canceled`/`failed` provider report is performed only by the periodic
sweep's per-order step. -/
theorem check_nonsucceeded_no_mutation (provider : String → Option String)
    (oid : String) (now : Int) (db : DB) (o : Order) (st : String)
    (hfind : db.orders.find? (fun x => x.order_id == oid) = some o)
    (hpaid : o.status ≠ "paid")
    (hprov : provider o.yookassa_payment_id = some st)
    (hst : st ≠ "succeeded") :
    check_payment_status provider oid now db = db
    ∧ ∀ (oid2 pid2 st2 : String), provider pid2 = some st2 →
        (st2 = "canceled" ∨ st2 = "failed") →
        (∀ x ∈ (sweepStep provider now db (oid2, pid2)).orders,
            x.order_id = oid2 → x.status = "failed")
        ∧ ∀ p ∈ (sweepStep provider now db (oid2, pid2)).payments,
            p.yookassa_id = pid2 → p.status = "failed" := by
  constructor
  · unfold check_payment_status
    simp only [hfind]
    rw [if_neg hpaid]
    simp [hprov, hst]
  · intro oid2 pid2 st2 hp2 hcf
    have hne : st2 ≠ "succeeded" := by
      rcases hcf with h | h <;> simp [h]
    unfold sweepStep
    simp only [hp2, if_neg hne, if_pos hcf]
    exact ⟨fail_orders_failed oid2 db.orders, fail_payments_failed pid2 db.payments⟩

/-- Witness for the amended C7 at a concrete pending order and a
`canceled` provider report. -/
theorem check_nonsucceeded_no_mutation_witness :
    ((testDB "created" "pending" 0).orders.find?
        (fun x => x.order_id == "o1") = some (testOrder "created"))
    ∧ check_payment_status (testProvider "canceled") "o1" 9
        (testDB "created" "pending" 0) = testDB "created" "pending" 0 :=
  ⟨by decide,
   (check_nonsucceeded_no_mutation (testProvider "canceled") "o1" 9
      (testDB "created" "pending" 0) (testOrder "created") "canceled"
      (by decide) (by decide) (by decide) (by decide)).1⟩

lemma settle_payments_length (pid oid : String) (now : Int) (db : DB) :
    (process_successful_payment pid oid now db).payments.length =
      db.payments.length := by
  unfold process_successful_payment
  cases hf : db.orders.find? (settleGuard oid) with
  | none => rfl
  | some o => simp [DB.updateUser]

lemma sweepStep_payments_length (provider : String → Option String)
    (now : Int) (db : DB) (pr : String × String) :
    (sweepStep provider now db pr).payments.length = db.payments.length := by
  unfold sweepStep
  cases hp : provider pr.2 with
  | none => rfl
  | some st =>
    by_cases h1 : st = "succeeded"
    · simp only [h1, if_pos rfl]
      exact settle_payments_length pr.2 pr.1 now db
    · by_cases h2 : st = "canceled" ∨ st = "failed" <;> simp [h1, h2]

lemma foldl_sweep_payments_length (provider : String → Option String)
    (now : Int) :
    ∀ (l : List (String × String)) (db : DB),
      (l.foldl (sweepStep provider now) db).payments.length =
        db.payments.length := by
  intro l
  induction l with
  | nil => intro db; rfl
  | cons pr rest ih =>
    intro db
    rw [List.foldl_cons, ih, sweepStep_payments_length]

lemma check_status_payments_length (provider : String → Option String)
    (oid : String) (now : Int) (db : DB) :
    (check_payment_status provider oid now db).payments.length =
      db.payments.length := by
  unfold check_payment_status
  cases hf : db.orders.find? (fun o => o.order_id == oid) with
  | none => rfl
  | some o =>
    by_cases hp : o.status = "paid"
    · simp [hp]
    · cases hpr : provider o.yookassa_payment_id with
      | none => simp [hp, hpr]
      | some st =>
        by_cases hs : st = "succeeded"
        · simp [hp, hpr, hs, settle_payments_length]
        · simp [hp, hpr, hs]

lemma handle_message_payments (ok : Bool) (uid : String) (db : DB) :
    (handle_message ok uid db).1.payments = db.payments := by
  unfold handle_message
  cases h : get_user_info db uid with
  | none => rfl
  | some a =>
    by_cases hlt : a.tokens < COST_PER_REQUEST
    · simp [hlt]
    · cases ok <;> simp [hlt, DB.updateUser]

/-- Counterexample to C8: the purge (`bot.py` lines 492-496) deletes only
`status IN ('failed', 'canceled')` — a `'paid'` order is never purged, no
matter how old.  Concretely: a paid order created at time 0 survives a
sweep at time 700000 (more than 7 days = 604800 seconds later), while a
failed order of the same age is deleted. -/
theorem paid_order_never_purged :
    (check_pending_payments (fun _ => none) 700000
        (testDB "paid" "completed" 0)).orders.map Order.status = ["paid"]
    ∧ (check_pending_payments (fun _ => none) 700000
        (testDB "failed" "failed" 0)).orders = [] := by
  decide

/-- C8 (amended): the purge step at the end of each sweep deletes exactly
the orders whose status is `'failed'` (or the never-assigned `'canceled'`)
and whose creation time is older than the 7-day window; `'paid'` orders are
never deleted (see the counterexample); and no payments row is ever
deleted by any operation — the sweep, the settlement engine, the
synchronous check and the message handler all preserve the `payments`
table's length, and order creation only appends to it. -/
theorem purge_policy_exact (provider : String → Option String)
    (pid oid oid2 pack_id uid uid2 : String) (pc : Option String) (ok : Bool)
    (now : Int) (db : DB) :
    (∀ o : Order, o ∈ (purge_stale now db).orders ↔
        o ∈ db.orders ∧
          ¬((o.status = "failed" ∨ o.status = "canceled") ∧
            o.created < now - 7 * 86400))
    ∧ (purge_stale now db).payments = db.payments
    ∧ (purge_stale now db).users = db.users
    ∧ (check_pending_payments provider now db).payments.length =
        db.payments.length
    ∧ (process_successful_payment pid oid now db).payments.length =
        db.payments.length
    ∧ (check_payment_status provider oid now db).payments.length =
        db.payments.length
    ∧ (handle_message ok uid db).1.payments = db.payments
    ∧ db.payments.length ≤
        (create_yookassa_payment pc uid2 pack_id oid2 now db).payments.length := by
  refine ⟨?_, rfl, rfl, ?_, settle_payments_length pid oid now db,
    check_status_payments_length provider oid now db,
    handle_message_payments ok uid db, ?_⟩
  · intro o
    simp [purge_stale, List.mem_filter, not_and, or_comm]
    tauto
  · unfold check_pending_payments
    calc (purge_stale now ((pendingOrders now db).foldl
            (sweepStep provider now) db)).payments.length
        = ((pendingOrders now db).foldl
            (sweepStep provider now) db).payments.length := rfl
      _ = db.payments.length := foldl_sweep_payments_length provider now _ db
  · unfold create_yookassa_payment
    cases token_packs pack_id with
    | none => exact le_refl _
    | some pack =>
      cases pc with
      | none => exact le_refl _
      | some cid => simp

lemma handle_message_fail (ok : Bool) (uid : String) (db : DB) (a : Account)
    (hu : get_user_info db uid = some a) (hlt : a.tokens < COST_PER_REQUEST) :
    handle_message ok uid db = (db, MsgResult.insufficient) := by
  unfold handle_message
  rw [hu]
  simp [hlt]

lemma handle_message_success (uid : String) (db : DB) (a : Account)
    (hu : get_user_info db uid = some a) (hge : COST_PER_REQUEST ≤ a.tokens) :
    handle_message true uid db =
      (db.updateUser uid
        (fun x => { x with tokens := x.tokens - COST_PER_REQUEST }),
       MsgResult.ok) := by
  unfold handle_message
  rw [hu]
  simp [not_lt.mpr hge]

lemma run_messages_tokens (uid : String) :
    ∀ (n : Nat) (db : DB) (a : Account), db.users uid = some a →
      ∃ b : Account, (run_messages uid n db).1.users uid = some b
        ∧ b.tokens =
            a.tokens - COST_PER_REQUEST * ((run_messages uid n db).2 : Int)
        ∧ b.total_spent = a.total_spent := by
  intro n
  induction n with
  | zero =>
    intro db a hu
    refine ⟨a, ?_, ?_, rfl⟩
    · simpa [run_messages] using hu
    · simp [run_messages]
  | succ n ih =>
    intro db a hu
    by_cases hlt : a.tokens < COST_PER_REQUEST
    · have h1 := handle_message_fail true uid db a hu hlt
      obtain ⟨b, hb, hbt, hbs⟩ := ih db a hu
      refine ⟨b, ?_, ?_, hbs⟩
      · simpa [run_messages, h1] using hb
      · simp only [run_messages, h1]
        rw [hbt]
        push_cast
        ring
    · push_neg at hlt
      have h1 := handle_message_success uid db a hu hlt
      have hu1 : (db.updateUser uid
            (fun x => { x with tokens := x.tokens - COST_PER_REQUEST })).users uid
          = some { a with tokens := a.tokens - COST_PER_REQUEST } := by
        rw [updateUser_users_self, hu]
        rfl
      obtain ⟨b, hb, hbt, hbs⟩ := ih _ _ hu1
      refine ⟨b, ?_, ?_, hbs⟩
      · simpa [run_messages, h1] using hb
      · simp only [run_messages, h1]
        simp only at hbt
        rw [hbt]
        push_cast
        ring

lemma run_messages_count (uid : String) :
    ∀ (n m : Nat) (db : DB) (a : Account), db.users uid = some a →
      a.tokens = COST_PER_REQUEST * (m : Int) →
      (run_messages uid n db).2 = min n m := by
  intro n
  induction n with
  | zero =>
    intro m db a _ _
    simp [run_messages]
  | succ n ih =>
    intro m db a hu htok
    cases m with
    | zero =>
      have hlt : a.tokens < COST_PER_REQUEST := by
        rw [htok]
        norm_num [COST_PER_REQUEST]
      have h1 := handle_message_fail true uid db a hu hlt
      have h2 := ih 0 db a hu htok
      simp [run_messages, h1, h2]
    | succ k =>
      have hge : COST_PER_REQUEST ≤ a.tokens := by
        rw [htok]
        simp only [COST_PER_REQUEST]
        push_cast
        omega
      have h1 := handle_message_success uid db a hu hge
      have hu1 : (db.updateUser uid
            (fun x => { x with tokens := x.tokens - COST_PER_REQUEST })).users uid
          = some { a with tokens := a.tokens - COST_PER_REQUEST } := by
        rw [updateUser_users_self, hu]
        rfl
      have htok1 : ({ a with tokens := a.tokens - COST_PER_REQUEST } : Account).tokens
          = COST_PER_REQUEST * (k : Int) := by
        simp only
        rw [htok]
        push_cast
        ring
      have h2 := ih k _ _ hu1 htok1
      simp only [run_messages, h1, h2]
      simp only [reduceIte]
      omega

lemma run_messages_nonneg (uid : String) :
    ∀ (n : Nat) (db : DB) (a : Account), db.users uid = some a →
      0 ≤ a.tokens →
      0 ≤ a.tokens - COST_PER_REQUEST * ((run_messages uid n db).2 : Int) := by
  intro n
  induction n with
  | zero =>
    intro db a _ h0
    simpa [run_messages] using h0
  | succ n ih =>
    intro db a hu h0
    by_cases hlt : a.tokens < COST_PER_REQUEST
    · have h1 := handle_message_fail true uid db a hu hlt
      have h2 := ih db a hu h0
      simp only [run_messages, h1]
      simpa using h2
    · push_neg at hlt
      have h1 := handle_message_success uid db a hu hlt
      have hu1 : (db.updateUser uid
            (fun x => { x with tokens := x.tokens - COST_PER_REQUEST })).users uid
          = some { a with tokens := a.tokens - COST_PER_REQUEST } := by
        rw [updateUser_users_self, hu]
        rfl
      have h2 := ih _ _ hu1 (by
        simp only
        simp only [COST_PER_REQUEST] at hlt ⊢
        omega)
      simp only at h2
      simp only [run_messages, h1]
      simp only [COST_PER_REQUEST] at h2 ⊢
      push_cast at h2 ⊢
      omega

/-- C3: debits at the fixed cost of 10 tokens — the final balance equals
the initial balance minus 10 times the number of successful debits, the
account's `total_spent` is untouched by debits, a request is debited only
when the balance covers the cost and is otherwise refused with no change,
the balance never goes negative, and an account starting at 100 tokens
supports exactly 10 consecutive requests after which the balance is 0 and
the 11th request is refused leaving everything unchanged. -/
theorem debit_sequence_spec (uid : String) (n : Nat) (db : DB) (a : Account)
    (hu : db.users uid = some a) :
    (∃ b : Account, (run_messages uid n db).1.users uid = some b
        ∧ b.tokens =
            a.tokens - COST_PER_REQUEST * ((run_messages uid n db).2 : Int)
        ∧ b.total_spent = a.total_spent)
    ∧ (a.tokens < COST_PER_REQUEST →
        handle_message true uid db = (db, MsgResult.insufficient))
    ∧ (COST_PER_REQUEST ≤ a.tokens →
        (handle_message true uid db).2 = MsgResult.ok
        ∧ ((handle_message true uid db).1.users uid).map Account.tokens =
            some (a.tokens - COST_PER_REQUEST))
    ∧ (0 ≤ a.tokens →
        0 ≤ a.tokens - COST_PER_REQUEST * ((run_messages uid n db).2 : Int))
    ∧ (a.tokens = 100 →
        (run_messages uid 10 db).2 = 10
        ∧ ((run_messages uid 10 db).1.users uid).map Account.tokens = some 0
        ∧ handle_message true uid (run_messages uid 10 db).1 =
            ((run_messages uid 10 db).1, MsgResult.insufficient)) := by
  refine ⟨run_messages_tokens uid n db a hu,
    fun hlt => handle_message_fail true uid db a hu hlt, ?_,
    fun h0 => run_messages_nonneg uid n db a hu h0, ?_⟩
  · intro hge
    rw [handle_message_success uid db a hu hge]
    refine ⟨rfl, ?_⟩
    rw [updateUser_users_self, hu]
    rfl
  · intro h100
    have hcnt := run_messages_count uid 10 10 db a hu (by
      rw [h100]; norm_num [COST_PER_REQUEST])
    simp only [Nat.min_self] at hcnt
    obtain ⟨b, hb, hbt, _⟩ := run_messages_tokens uid 10 db a hu
    have hb0 : b.tokens = 0 := by
      rw [hbt, hcnt, h100]
      norm_num [COST_PER_REQUEST]
    refine ⟨hcnt, ?_, ?_⟩
    · rw [hb]
      simp [hb0]
    · exact handle_message_fail true uid _ b hb (by
        rw [hb0]; norm_num [COST_PER_REQUEST])

/-- Witness for C3: an account with 100 tokens has exactly 10 of its
requests debited. -/
theorem debit_sequence_spec_witness :
    (testDB "created" "pending" 100).users "u1" = some ⟨100, 0, 0⟩
    ∧ (run_messages "u1" 10 (testDB "created" "pending" 100)).2 = 10 :=
  ⟨by decide,
   ((debit_sequence_spec "u1" 3 (testDB "created" "pending" 100) ⟨100, 0, 0⟩
      (by decide)).2.2.2.2 (by decide)).1⟩

/-- C4: order creation is all-or-nothing with respect to provider
failure — if `Payment.create` raises (modelled by `provider_create =
none`), no order row and no payments row is persisted; when the provider
returns a charge id, exactly one order row (status `'created'`) and one
payments row (status `'pending'`), both referencing that charge id, are
appended. -/
theorem create_order_all_or_nothing (uid pack_id oid cid : String)
    (now : Int) (db : DB) (pack : Pack)
    (hpack : token_packs pack_id = some pack) :
    create_yookassa_payment none uid pack_id oid now db = db
    ∧ create_yookassa_payment (some cid) uid pack_id oid now db =
        { db with
          orders := db.orders ++
            [⟨oid, uid, pack_id, pack.tokens, pack.price, cid, "created", now⟩],
          payments := db.payments ++
            [⟨uid, pack.price, pack.tokens, cid, "pending",
              "Покупка токенов", now, now⟩] } := by
  unfold create_yookassa_payment
  rw [hpack]
  exact ⟨rfl, rfl⟩

/-- Witness for C4 at the `small` pack. -/
theorem create_order_all_or_nothing_witness :
    token_packs "small" = some ⟨1000, 100⟩
    ∧ create_yookassa_payment none "u1" "small" "o9" 3
        (testDB "created" "pending" 0) = testDB "created" "pending" 0 :=
  ⟨by decide,
   (create_order_all_or_nothing "u1" "small" "o9" "c9" 3
      (testDB "created" "pending" 0) ⟨1000, 100⟩ (by decide)).1⟩

/-- C6: a debit of the request cost followed by a downstream failure is
compensated by the refund of `bot.py` line 666 — the handler returns the
database exactly as it was (the balance is restored to its pre-debit value
and `total_spent`, the orders and the payments tables are untouched). -/
theorem debit_refund_restores (uid : String) (db : DB) (a : Account)
    (hu : get_user_info db uid = some a)
    (hge : COST_PER_REQUEST ≤ a.tokens) :
    handle_message false uid db = (db, MsgResult.refunded) := by
  unfold handle_message
  rw [hu]
  simp only [if_neg (not_lt.mpr hge), Bool.false_eq_true, if_false]
  congr 1
  cases db with
  | mk us os ps =>
    simp only [DB.updateUser]
    congr 1
    funext u
    by_cases h : u = uid
    · subst h
      rw [show us u = some a from hu]
      cases a with
      | mk t sp reg =>
        have ht : t - COST_PER_REQUEST + COST_PER_REQUEST = t := by omega
        simp [ht]
    · simp [h]

/-- Witness for C6 at a concrete account holding 100 tokens. -/
theorem debit_refund_restores_witness :
    get_user_info (testDB "created" "pending" 100) "u1" = some ⟨100, 0, 0⟩
    ∧ handle_message false "u1" (testDB "created" "pending" 100) =
        (testDB "created" "pending" 100, MsgResult.refunded) :=
  ⟨by decide,
   debit_refund_restores "u1" (testDB "created" "pending" 100) ⟨100, 0, 0⟩
     (by decide) (by decide)⟩

/-- C9 (failing execution): the balance check of `bot.py` line 550 and the
debit of line 568 are separated by the awaited `chat.send_action` of line
564, so two concurrent `handle_message` coroutines for the same user are
not linearizable: with balance 10, the schedule that runs both balance
checks before either debit lets both requests pass the check and both
debit, leaving the balance at -10 — a double-spend that also drives the
balance negative, which no sequential execution of the handler can do. -/
theorem concurrent_double_spend :
    runConc ⟨10, Phase.start, Phase.start⟩ [true, false, true, false] =
      ⟨-10, Phase.done, Phase.done⟩
    ∧ (runConc ⟨10, Phase.start, Phase.start⟩ [true, false, true, false]).tokens < 0 := by
  decide

lemma cancel_not_create (oid : String) :
    "create_payment_".data.isPrefixOf ("cancel_order_" ++ oid).data = false := by
  by_contra hc
  rw [Bool.not_eq_false, List.isPrefixOf_iff_prefix] at hc
  obtain ⟨s, hs⟩ := hc
  rw [String.data_append] at hs
  simp [String.data] at hs

lemma cancel_not_check (oid : String) :
    "check_payment_".data.isPrefixOf ("cancel_order_" ++ oid).data = false := by
  by_contra hc
  rw [Bool.not_eq_false, List.isPrefixOf_iff_prefix] at hc
  obtain ⟨s, hs⟩ := hc
  rw [String.data_append] at hs
  simp [String.data] at hs

lemma find?_settleGuard_of_find? (oid : String) (o : Order) :
    ∀ l : List Order, l.find? (fun x => x.order_id == oid) = some o →
      o.status ≠ "paid" → l.find? (settleGuard oid) = some o := by
  intro l
  induction l with
  | nil => intro h _; simp at h
  | cons x xs ih =>
    intro h hs
    by_cases hx : x.order_id = oid
    · have hxo : x = o := Option.some.inj (by
        rwa [List.find?_cons_of_pos _ (by simp [hx])] at h)
      subst hxo
      rw [List.find?_cons_of_pos _ (by simp [settleGuard, hx, hs])]
    · rw [List.find?_cons_of_neg _ (by simp [hx])] at h
      rw [List.find?_cons_of_neg _ (by simp [settleGuard, hx])]
      exact ih h hs

/-- C10: the `cancel_order_<order_id>` button leaves every persisted table
unchanged — the order keeps its status, the payments row keeps its status
and the balance is untouched — and therefore a "canceled" order can still
be settled to `'paid'`, with the account credited, by a later synchronous
check once the provider reports `succeeded`. -/
theorem cancel_keeps_state (provider : String → Option String)
    (pc : Option String) (uid noid oid : String) (now : Int) (db : DB)
    (o : Order) (a : Account)
    (hfind : db.orders.find? (fun x => x.order_id == oid) = some o)
    (hst : o.status = "created")
    (hprov : provider o.yookassa_payment_id = some "succeeded")
    (hu : db.users o.user_id = some a) :
    button_handler provider pc uid noid now ("cancel_order_" ++ oid) db = db
    ∧ (check_payment_status provider oid now
          (button_handler provider pc uid noid now ("cancel_order_" ++ oid) db)).users
        o.user_id =
        some { a with tokens := a.tokens + o.tokens,
                      total_spent := a.total_spent + o.price }
    ∧ ∀ x ∈ (check_payment_status provider oid now
          (button_handler provider pc uid noid now ("cancel_order_" ++ oid) db)).orders,
        x.order_id = oid → x.status = "paid" := by
  have hb : button_handler provider pc uid noid now ("cancel_order_" ++ oid) db = db := by
    unfold button_handler
    simp [cancel_not_create oid, cancel_not_check oid]
  have hpaid : o.status ≠ "paid" := by
    rw [hst]
    decide
  have hguard := find?_settleGuard_of_find? oid o db.orders hfind hpaid
  have hcheck : check_payment_status provider oid now db =
      process_successful_payment o.yookassa_payment_id oid now db := by
    unfold check_payment_status
    simp only [hfind]
    rw [if_neg hpaid]
    simp [hprov]
  refine ⟨hb, ?_, ?_⟩
  · rw [hb, hcheck]
    exact settle_users_credited _ oid now db o a hguard hu
  · rw [hb, hcheck]
    exact settle_orders_paid _ oid now db o hguard

/-- Witness for C10 at a concrete pending order. -/
theorem cancel_keeps_state_witness :
    ((testDB "created" "pending" 0).orders.find?
        (fun x => x.order_id == "o1") = some (testOrder "created"))
    ∧ button_handler (testProvider "succeeded") none "u1" "n1" 4
        ("cancel_order_" ++ "o1") (testDB "created" "pending" 0) =
      testDB "created" "pending" 0 :=
  ⟨by decide,
   (cancel_keeps_state (testProvider "succeeded") none "u1" "n1" "o1" 4
      (testDB "created" "pending" 0) (testOrder "created") ⟨0, 0, 0⟩
      (by decide) (by decide) (by decide) (by decide)).1⟩

end YooKassaBot
